import Mathlib

/-!
Verification of the keyboard-shortcut dispatch layer of PyWO
(`pywo/services/keyboard_service.py`): binding-table construction,
the shortcut dispatcher with its error containment, and the modal
("PyWO mode") state machine of `ModalKeyHandler`, together with the
module-level `start`/`stop` lifecycle functions.

The windowing-system adapter (`WindowManager`), the `events.KeyHandler`
base class and the action registry are external collaborators; they are
modelled from the spec (section 6) as parameters: a resolver environment
for `str2modifiers_keycode`, a grab multiset keyed by handler identity
for grab/ungrab, and a dispatch environment for the active-window query,
argument resolution and action invocation.
-/

namespace Pywo

/-- A key combination: (modifier mask, keycode), as produced by
`WM.str2modifiers_keycode`. -/
structure KeyCombo where
  modifiers : Nat
  keycode : Nat
deriving DecidableEq

/-- An action from the action registry (`actions.manager.get_all()`):
its name and whether it is section-scoped (`need_section`). -/
structure PAction where
  name : String
  need_section : Bool
deriving DecidableEq

/-- A configuration section (`config.sections.values()`): its name, its
key string (`section.key`; the empty string models a missing/falsy key)
and its per-section ignored-action names. -/
structure PSection where
  sname : String
  key : String
  ignored_actions : List String
deriving DecidableEq

/-- The configuration object, as consumed by `set_config`:
per-action key strings (`config.keys`, an association list standing for
the dict, `get` returning `none` when absent), sections, the global
ignore list (`config.ignored_actions`, holding actions), lock flags,
the modal flag and the feedback settings. -/
structure Config where
  keys : List (String × String)
  sections : List PSection
  ignored_actions : List PAction
  numlock : Bool
  capslock : Bool
  modal_mode : Bool
  visual_bell : Bool
  bell_color : String
  bell_width : Nat
  bell_duration : Nat
  scroll_lock_led : Bool
deriving DecidableEq

/-- Association-list lookup (dict `get`: `none` when the key is absent). -/
def alGet {α : Type} [DecidableEq α] {β : Type} :
    List (α × β) → α → Option β
  | [], _ => none
  | (k, v) :: rest, a => if k = a then some v else alGet rest a

/-- A binding target stored in `self.mappings`: the action and, for
section-scoped actions, the section (`None` for global actions). -/
abbrev Target := PAction × Option PSection

/-- The dispatcher's mapping, `self.mappings`:
`{(modifiers, keycode): (action, section)}`.  Keys are unique, as in a
Python dict. -/
abbrev Mappings := List (KeyCombo × Target)

/-- Python dict assignment `m[k] = v`: replaces the value when the key
is present, appends otherwise. -/
def dictInsert (m : Mappings) (k : KeyCombo) (v : Target) : Mappings :=
  if m.any (fun p => p.1 = k) then
    m.map (fun p => if p.1 = k then (k, v) else p)
  else
    m ++ [(k, v)]

/-- Exceptions that `set_config` can raise to its caller:
`ValueError` from `str2modifiers_keycode`, and the `NameError`
(unbound local) raised when `(mod, keycode)` is used before any
resolution has succeeded. -/
inductive PyErr
  | valueError
  | nameError
deriving DecidableEq

/-- Modelled from the spec: the windowing-system adapter's
`str2modifiers_keycode`, called either with `(mask, key)` for
section-scoped actions or with a single key string for global actions
and the mode-entry key.  Fails with a `ValueError` on unparseable
input; the adapter itself is external, so it is a parameter. -/
structure ResolveEnv where
  resolve2 : String → String → Except Unit KeyCombo
  resolve1 : String → Except Unit KeyCombo

/-- State of `PywoModeKeyPressHandler`: the current config, the
mappings dict, the `keys` snapshot taken at the end of `set_config`,
and the lock-sensitivity flags. -/
structure DispState where
  config : Option Config
  mappings : Mappings
  keys : List KeyCombo
  numlock : Bool
  capslock : Bool
deriving DecidableEq

/-- The inner `for section in config.sections.values()` loop of
`PywoModeKeyPressHandler.set_config` for one section-scoped action.
`last` is the current value of the function-local pair
`(mod, keycode)` (`none` while still unbound).  On a `ValueError` the
exception is caught and logged, and the following dict assignment still
runs with the stale `(mod, keycode)`; if that pair is unbound the
assignment raises a `NameError` which propagates. -/
def sectionsLoop (env : ResolveEnv) (act : PAction) (mask : String) :
    List PSection → Mappings → Option KeyCombo →
    (Mappings × Option KeyCombo) × Option PyErr
  | [], m, last => ((m, last), none)
  | sec :: rest, m, last =>
    if sec.key ≠ "" ∧ act.name ∉ sec.ignored_actions then
      match env.resolve2 mask sec.key with
      | Except.ok c =>
          sectionsLoop env act mask rest (dictInsert m c (act, some sec)) (some c)
      | Except.error _ =>
          match last with
          | some c =>
              sectionsLoop env act mask rest (dictInsert m c (act, some sec)) (some c)
          | none => ((m, last), some PyErr.nameError)
    else
      sectionsLoop env act mask rest m last

/-- The outer `for action in actions.manager.get_all()` loop of
`PywoModeKeyPressHandler.set_config`.  For a global action an invalid
key string raises `ValueError` with no surrounding handler, so the
loop aborts with the mappings accumulated so far. -/
def actionsLoop (env : ResolveEnv) (cfg : Config) :
    List PAction → Mappings → Option KeyCombo →
    (Mappings × Option KeyCombo) × Option PyErr
  | [], m, last => ((m, last), none)
  | act :: rest, m, last =>
    if act.need_section then
      match alGet cfg.keys act.name with
      | none => actionsLoop env cfg rest m last
      | some mask =>
        if mask = "" then
          actionsLoop env cfg rest m last
        else
          match sectionsLoop env act mask cfg.sections m last with
          | (st, none) => actionsLoop env cfg rest st.1 st.2
          | (st, some e) => (st, some e)
    else
      match alGet cfg.keys act.name with
      | none => actionsLoop env cfg rest m last
      | some key =>
        if key = "" ∨ act ∈ cfg.ignored_actions then
          actionsLoop env cfg rest m last
        else
          match env.resolve1 key with
          | Except.ok c =>
              actionsLoop env cfg rest (dictInsert m c (act, none)) (some c)
          | Except.error _ => ((m, last), some PyErr.valueError)

/-- `PywoModeKeyPressHandler.set_config`: stores the config, clears the
mappings, runs the build loop over the action catalog, and on normal
completion snapshots `keys` and the lock flags.  When the loop raises,
the partially rebuilt mappings (and the stored config) remain, while
`keys` and the lock flags keep their previous values; the exception is
reported in the second component. -/
def pywoSetConfig (env : ResolveEnv) (catalog : List PAction)
    (cfg : Config) (s : DispState) : DispState × Option PyErr :=
  match actionsLoop env cfg catalog [] none with
  | ((m, _), none) =>
      ({ config := some cfg
         mappings := m
         keys := m.map Prod.fst
         numlock := cfg.numlock
         capslock := cfg.capslock }, none)
  | ((m, _), some e) =>
      ({ s with config := some cfg, mappings := m }, some e)

/-!  The dispatch path of `PywoModeKeyPressHandler.key_press`. -/

/-- Exceptions raised inside the dispatch `try` block: either a
recognized `actions.ActionException` or any other `Exception`. -/
inductive PyExc
  | actionException
  | otherException
deriving DecidableEq

/-- Observable steps taken by `key_press`: the `log.debug` call, the
`WM.active_window()` query, the `action.get_kwargs` call, the action
invocation, and the two logging calls of the `except` clauses. -/
inductive DEffect
  | logDebug
  | queryActiveWindow
  | getKwargs
  | invokeAction (aname : String)
  | logError
  | logException
deriving DecidableEq

/-- Modelled from the spec: the external collaborators used inside the
dispatch `try` block — the adapter's `active_window()` query, the
action's `get_kwargs(config, section)` argument resolution, and the
action invocation `action(window, **kwargs)`.  Each may fail with a
recognized action exception or any other exception. -/
structure DispatchEnv where
  activeWindow : Except PyExc Nat
  kwargs : String → Option String → Except PyExc (List (String × String))
  invoke : String → Nat → List (String × String) → Except PyExc Unit

/-- The body of the `try` block in `key_press`, for the binding target
found in the mappings: query the active window, resolve the kwargs,
invoke the action.  Returns the effects performed and the exception, if
one was raised. -/
def dispatchBody (env : DispatchEnv) (t : Target) :
    List DEffect × Option PyExc :=
  match env.activeWindow with
  | Except.error e => ([DEffect.queryActiveWindow], some e)
  | Except.ok w =>
    match env.kwargs t.1.name (t.2.map PSection.sname) with
    | Except.error e => ([DEffect.queryActiveWindow, DEffect.getKwargs], some e)
    | Except.ok kw =>
      match env.invoke t.1.name w kw with
      | Except.error e =>
          ([DEffect.queryActiveWindow, DEffect.getKwargs,
            DEffect.invokeAction t.1.name], some e)
      | Except.ok _ =>
          ([DEffect.queryActiveWindow, DEffect.getKwargs,
            DEffect.invokeAction t.1.name], none)

/-- `PywoModeKeyPressHandler.key_press(event)`: if the event's
`(modifiers, keycode)` pair is not in the mappings, return immediately;
otherwise log the event and run the `try` block, with
`except ActionException` logging at error severity and
`except Exception` logging the full traceback.  Returns the effects
performed and the exception propagated to the caller, if any. -/
def pywoKeyPress (env : DispatchEnv) (s : DispState) (ev : KeyCombo) :
    List DEffect × Option PyExc :=
  match alGet s.mappings ev with
  | none => ([], none)
  | some t =>
    match dispatchBody env t with
    | (tr, none) => (DEffect.logDebug :: tr, none)
    | (tr, some PyExc.actionException) =>
        (DEffect.logDebug :: tr ++ [DEffect.logError], none)
    | (tr, some PyExc.otherException) =>
        (DEffect.logDebug :: tr ++ [DEffect.logException], none)

/-!  The modal controller `ModalKeyHandler` and the grab bookkeeping. -/

/-- Identity of a key handler that can hold grabs: the
`ModalKeyHandler` itself, its `escape_handler`, or its
`pywo_handler`. -/
inductive HandlerId
  | controller
  | escapeH
  | pywoH
deriving DecidableEq

/-- The adapter-side record of grabs: which handler currently holds a
grab on which combo.  Modelled from the spec: `grab`/`ungrab`
register/deregister a combo for delivery to a handler. -/
abbrev Grabs := List (HandlerId × KeyCombo)

/-- Register one grab (idempotent: regrabbing an already held combo
leaves the record unchanged). -/
def grabOne (g : Grabs) (h : HandlerId) (c : KeyCombo) : Grabs :=
  if (h, c) ∈ g then g else g ++ [(h, c)]

/-- `KeyHandler.grab_keys`: grab every combo in the handler's key
list.  Modelled from the spec (section 6). -/
def grabList (g : Grabs) (h : HandlerId) (cs : List KeyCombo) : Grabs :=
  cs.foldl (fun acc c => grabOne acc h c) g

/-- `KeyHandler.ungrab_keys`: deregister every combo in the handler's
key list.  Modelled from the spec (section 6); ungrabbing a combo that
is not held is a no-op. -/
def ungrabList (g : Grabs) (h : HandlerId) (cs : List KeyCombo) : Grabs :=
  g.filter (fun p => decide (p.1 ≠ h ∨ p.2 ∉ cs))

/-- Side effects of the controller, in the order they are issued:
indicator-LED switching, the visual bell, grabs/ungrabs and the final
`flush`. -/
inductive Effect
  | ledOn
  | ledOff
  | bell (color : String) (width : Nat) (duration : Nat)
  | grab (h : HandlerId) (c : KeyCombo)
  | ungrab (h : HandlerId) (c : KeyCombo)
  | flush
deriving DecidableEq

/-- State of `ModalKeyHandler`: the flags, the inner dispatcher, the
controller's own `keys` list (the mode-entry combo once configured),
the escape handler's key list, and the feedback settings. -/
structure ModalState where
  use_modal_mode : Bool
  in_pywo_mode : Bool
  pywo : DispState
  keys : List KeyCombo
  escape_keys : List KeyCombo
  numlock : Bool
  capslock : Bool
  visual_bell : Bool
  bell_color : String
  bell_width : Nat
  bell_duration : Nat
  scroll_lock_led : Bool
deriving DecidableEq

/-- `ModalKeyHandler.__init__()`: modal flags off, a fresh inner
dispatcher, the escape handler holding the combo resolved from
`Escape`, and default feedback settings. -/
def initModal (esc : KeyCombo) : ModalState :=
  { use_modal_mode := false
    in_pywo_mode := false
    pywo := { config := none
              mappings := []
              keys := []
              numlock := false
              capslock := false }
    keys := []
    escape_keys := [esc]
    numlock := false
    capslock := false
    visual_bell := false
    bell_color := "white"
    bell_width := 0
    bell_duration := 0
    scroll_lock_led := false }

/-- `ModalKeyHandler.pywo_mode(event)`: turn the ScrollLock LED on if
enabled, trigger the visual bell if enabled, grab the inner
dispatcher's keys, grab the escape handler's keys, and set
`in_pywo_mode`. -/
def pywoModeStep (s : ModalState) (g : Grabs) :
    ModalState × Grabs × List Effect :=
  let e1 := if s.scroll_lock_led then [Effect.ledOn] else []
  let e2 := if s.visual_bell then
      [Effect.bell s.bell_color s.bell_width s.bell_duration] else []
  let g1 := grabList g HandlerId.pywoH s.pywo.keys
  let g2 := grabList g1 HandlerId.escapeH s.escape_keys
  ({ s with in_pywo_mode := true }, g2,
   e1 ++ e2 ++ s.pywo.keys.map (Effect.grab HandlerId.pywoH)
      ++ s.escape_keys.map (Effect.grab HandlerId.escapeH))

/-- `ModalKeyHandler.ungrab_keys(window)`: if in PyWO mode and modal
mode is in use, ungrab the escape handler's keys; if in PyWO mode,
ungrab the inner dispatcher's keys; otherwise ungrab the controller's
own keys. -/
def modalUngrab (s : ModalState) (g : Grabs) : Grabs × List Effect :=
  let esc : Grabs × List Effect :=
    if s.in_pywo_mode ∧ s.use_modal_mode then
      (ungrabList g HandlerId.escapeH s.escape_keys,
       s.escape_keys.map (Effect.ungrab HandlerId.escapeH))
    else (g, [])
  if s.in_pywo_mode then
    (ungrabList esc.1 HandlerId.pywoH s.pywo.keys,
     esc.2 ++ s.pywo.keys.map (Effect.ungrab HandlerId.pywoH))
  else
    (ungrabList esc.1 HandlerId.controller s.keys,
     esc.2 ++ s.keys.map (Effect.ungrab HandlerId.controller))

/-- `ModalKeyHandler.normal_mode(event)`: turn the LED off if enabled,
trigger the visual bell if enabled, run `self.ungrab_keys`, and clear
`in_pywo_mode`. -/
def normalModeStep (s : ModalState) (g : Grabs) :
    ModalState × Grabs × List Effect :=
  let e1 := if s.scroll_lock_led then [Effect.ledOff] else []
  let e2 := if s.visual_bell then
      [Effect.bell s.bell_color s.bell_width s.bell_duration] else []
  let u := modalUngrab s g
  ({ s with in_pywo_mode := false }, u.1, e1 ++ e2 ++ u.2)

/-- `ModalKeyHandler.key_press(event)`: ignore events whose combo is
not in the controller's own `keys`; otherwise leave PyWO mode if in it,
enter it if not. -/
def modalKeyPress (s : ModalState) (g : Grabs) (ev : KeyCombo) :
    ModalState × Grabs × List Effect :=
  if ev ∈ s.keys then
    if s.in_pywo_mode then normalModeStep s g else pywoModeStep s g
  else (s, g, [])

/-- `ModalKeyHandler.grab_keys(window)`: with modal mode in use, grab
the controller's own keys; otherwise delegate to the inner
dispatcher's `grab_keys`. -/
def modalGrab (s : ModalState) (g : Grabs) : Grabs × List Effect :=
  if s.use_modal_mode then
    (grabList g HandlerId.controller s.keys,
     s.keys.map (Effect.grab HandlerId.controller))
  else
    (grabList g HandlerId.pywoH s.pywo.keys,
     s.pywo.keys.map (Effect.grab HandlerId.pywoH))

/-- `ModalKeyHandler.set_config(config)`: rebuild the inner
dispatcher's bindings first (an exception there propagates); read the
`pywo_mode` key and, if missing or empty, clear `use_modal_mode` and
return, touching nothing else; otherwise resolve the mode-entry combo
(a `ValueError` propagates), take over the lock flags, the modal flag
and the feedback settings, and when modal mode is not in use force
`in_pywo_mode`. -/
def modalSetConfig (env : ResolveEnv) (catalog : List PAction)
    (cfg : Config) (s : ModalState) : ModalState × Option PyErr :=
  match pywoSetConfig env catalog cfg s.pywo with
  | (p, some e) => ({ s with pywo := p }, some e)
  | (p, none) =>
    match alGet cfg.keys "pywo_mode" with
    | none => ({ s with pywo := p, use_modal_mode := false }, none)
    | some k =>
      if k = "" then ({ s with pywo := p, use_modal_mode := false }, none)
      else
        match env.resolve1 k with
        | Except.error _ => ({ s with pywo := p }, some PyErr.valueError)
        | Except.ok entry =>
          let s1 : ModalState :=
            { s with
              pywo := p
              keys := [entry]
              numlock := cfg.numlock
              capslock := cfg.capslock
              use_modal_mode := cfg.modal_mode
              visual_bell := cfg.visual_bell
              bell_color := cfg.bell_color
              bell_width := cfg.bell_width
              bell_duration := cfg.bell_duration
              scroll_lock_led := cfg.scroll_lock_led }
          (if cfg.modal_mode then s1 else { s1 with in_pywo_mode := true },
           none)

/-- Module-level `stop()`: force the ScrollLock LED off, flush the
adapter, and call the controller's `ungrab_keys`. -/
def stopStep (s : ModalState) (g : Grabs) : Grabs × List Effect :=
  let u := modalUngrab s g
  (u.1, Effect.ledOff :: Effect.flush :: u.2)

/-- Run a sequence of key-press events through the controller,
threading the state and the grab record. -/
def runPresses (s : ModalState) (g : Grabs) :
    List KeyCombo → ModalState × Grabs
  | [] => (s, g)
  | ev :: rest =>
    let r := modalKeyPress s g ev
    runPresses r.1 r.2.1 rest

/-- Every combo is grabbed by at most one handler. -/
def OneHandlerPerCombo (g : Grabs) : Prop :=
  ∀ c h1 h2, (h1, c) ∈ g → (h2, c) ∈ g → h1 = h2

/-!  Concrete fixtures used by witnesses and counterexamples. -/

/-- The combo `str2modifiers_keycode` yields for the string `Escape`. -/
def escCombo : KeyCombo := ⟨0, 9⟩

/-- The combo resolved from the key string `F11`. -/
def f11Combo : KeyCombo := ⟨0, 95⟩

/-- The combo resolved from the key string `KP_Divide`. -/
def kpdCombo : KeyCombo := ⟨0, 106⟩

/-- The combo resolved from `(super, h)`. -/
def superH : KeyCombo := ⟨64, 43⟩

/-- A concrete resolver: `F11`, `Escape` and `KP_Divide` resolve as
single key strings, `(super, h)` resolves as a masked pair, everything
else raises `ValueError`. -/
def rv : ResolveEnv :=
  { resolve1 := fun s =>
      if s = "F11" then Except.ok f11Combo
      else if s = "Escape" then Except.ok escCombo
      else if s = "KP_Divide" then Except.ok kpdCombo
      else Except.error ()
    resolve2 := fun m k =>
      if m = "super" ∧ k = "h" then Except.ok superH
      else Except.error () }

/-- A global (non-section-scoped) action named `float`. -/
def floatA : PAction := ⟨"float", false⟩

/-- A second global action named `exit`. -/
def exitA : PAction := ⟨"exit", false⟩

/-- A section-scoped action named `put`. -/
def putA : PAction := ⟨"put", true⟩

/-- A section with a valid key string. -/
def secLeft : PSection := ⟨"left", "h", []⟩

/-- A section whose key string does not resolve. -/
def secBad : PSection := ⟨"bad", "%%", []⟩

/-- A configuration with a mode-entry key and modal mode enabled: one
global shortcut `float -> KP_Divide`, `pywo_mode -> F11`. -/
def cfgModal : Config :=
  { keys := [("float", "KP_Divide"), ("pywo_mode", "F11")]
    sections := []
    ignored_actions := []
    numlock := false
    capslock := false
    modal_mode := true
    visual_bell := false
    bell_color := "red"
    bell_width := 2
    bell_duration := 5
    scroll_lock_led := true }

/-- The same configuration with `modal_mode` off. -/
def cfgNonModal : Config := { cfgModal with modal_mode := false }

/-- A configuration with no `pywo_mode` entry at all. -/
def cfgNoKey : Config := { cfgModal with keys := [("float", "KP_Divide")] }

/-- A fresh `PywoModeKeyPressHandler()` state (no config given). -/
def dInit : DispState :=
  { config := none
    mappings := []
    keys := []
    numlock := false
    capslock := false }

/-- A dispatch environment whose action raises an `ActionException`. -/
def envAct : DispatchEnv :=
  { activeWindow := Except.ok 7
    kwargs := fun _ _ => Except.ok []
    invoke := fun _ _ _ => Except.error PyExc.actionException }

/-- A dispatcher state with one binding, `KP_Divide -> float`. -/
def dOne : DispState :=
  { dInit with
    mappings := [(kpdCombo, (floatA, none))]
    keys := [kpdCombo] }

/-!  Helper lemmas about the grab bookkeeping. -/

/-- Membership in the result of `ungrabList`. -/
theorem mem_ungrabList {g : Grabs} {h : HandlerId} {cs : List KeyCombo}
    {p : HandlerId × KeyCombo} :
    p ∈ ungrabList g h cs ↔ p ∈ g ∧ (p.1 ≠ h ∨ p.2 ∉ cs) := by
  unfold ungrabList
  simp [List.mem_filter]

/-- `ungrabList` only removes grabs. -/
theorem ungrabList_subset {g : Grabs} {h : HandlerId} {cs : List KeyCombo}
    {p : HandlerId × KeyCombo} (hp : p ∈ ungrabList g h cs) : p ∈ g :=
  (mem_ungrabList.mp hp).1

/-- A grab surviving in `grabOne` came from the argument or is the new
pair. -/
theorem mem_grabOne {g : Grabs} {h : HandlerId} {c : KeyCombo}
    {p : HandlerId × KeyCombo} (hp : p ∈ grabOne g h c) :
    p ∈ g ∨ p = (h, c) := by
  unfold grabOne at hp
  by_cases hm : (h, c) ∈ g
  · simp [hm] at hp
    exact Or.inl hp
  · simp [hm] at hp
    exact hp

/-- A grab in the result of `grabList` came from the argument or pairs
the handler with one of its keys. -/
theorem mem_grabList {h : HandlerId} {p : HandlerId × KeyCombo} :
    ∀ (cs : List KeyCombo) (g : Grabs), p ∈ grabList g h cs →
      p ∈ g ∨ (p.1 = h ∧ p.2 ∈ cs) := by
  intro cs
  induction cs with
  | nil => intro g hp; exact Or.inl hp
  | cons c rest ih =>
    intro g hp
    have hstep := ih (grabOne g h c) (by simpa [grabList] using hp)
    rcases hstep with hin | ⟨h1, h2⟩
    · rcases mem_grabOne hin with hg | he
      · exact Or.inl hg
      · exact Or.inr ⟨by rw [he], by rw [he]; exact List.mem_cons_self c rest⟩
    · exact Or.inr ⟨h1, List.mem_cons_of_mem c h2⟩

/-- The grabs left by the controller's `ungrab_keys` are a subset of
the grabs it was given. -/
theorem modalUngrab_subset {s : ModalState} {g : Grabs}
    {p : HandlerId × KeyCombo} (hp : p ∈ (modalUngrab s g).1) : p ∈ g := by
  unfold modalUngrab at hp
  by_cases h2 : s.in_pywo_mode = true <;> by_cases h3 : s.use_modal_mode = true <;>
    simp [h2, h3] at hp <;>
      first
        | exact ungrabList_subset (ungrabList_subset hp)
        | exact ungrabList_subset hp

/-- A key press leaves the controller's key lists, its escape handler
and its inner dispatcher untouched: only `in_pywo_mode` and the grabs
change. -/
theorem modalKeyPress_fields (s : ModalState) (g : Grabs) (ev : KeyCombo) :
    (modalKeyPress s g ev).1.keys = s.keys ∧
    (modalKeyPress s g ev).1.escape_keys = s.escape_keys ∧
    (modalKeyPress s g ev).1.pywo = s.pywo ∧
    (modalKeyPress s g ev).1.use_modal_mode = s.use_modal_mode ∧
    (modalKeyPress s g ev).1.scroll_lock_led = s.scroll_lock_led ∧
    (modalKeyPress s g ev).1.visual_bell = s.visual_bell := by
  unfold modalKeyPress normalModeStep pywoModeStep
  by_cases hev : ev ∈ s.keys <;> by_cases hm : s.in_pywo_mode = true <;>
    simp [hev, hm]

/-!  The grab-domain invariant behind the uniqueness property. -/

/-- Every grab in `g` pairs the controller with a combo from `ks`, the
escape handler with a combo from `es`, or the inner dispatcher with a
combo from `ps`. -/
def GrabsWithin (ks es ps : List KeyCombo) (g : Grabs) : Prop :=
  ∀ p ∈ g,
    match p.1 with
    | HandlerId.controller => p.2 ∈ ks
    | HandlerId.escapeH => p.2 ∈ es
    | HandlerId.pywoH => p.2 ∈ ps

/-- One key press preserves the grab-domain invariant. -/
theorem modalKeyPress_within {ks es ps : List KeyCombo} {s : ModalState}
    {g : Grabs} (ev : KeyCombo)
    (_h1 : s.keys = ks) (h2 : s.escape_keys = es) (h3 : s.pywo.keys = ps)
    (hg : GrabsWithin ks es ps g) :
    GrabsWithin ks es ps (modalKeyPress s g ev).2.1 := by
  intro p hp
  unfold modalKeyPress at hp
  by_cases hev : ev ∈ s.keys
  · by_cases hm : s.in_pywo_mode = true
    · simp [hev, hm, normalModeStep] at hp
      exact hg p (modalUngrab_subset hp)
    · simp [hev, hm, pywoModeStep] at hp
      rcases mem_grabList _ _ hp with hp1 | ⟨hpe, hpc⟩
      · rcases mem_grabList _ _ hp1 with hp2 | ⟨hqe, hqc⟩
        · exact hg p hp2
        · rw [h3] at hqc
          cases p
          simp only at hqe hqc
          rw [hqe]
          exact hqc
      · rw [h2] at hpc
        cases p
        simp only at hpe hpc
        rw [hpe]
        exact hpc
  · simp [hev] at hp
    exact hg p hp

/-- A whole key-press sequence preserves the grab-domain invariant. -/
theorem runPresses_within {ks es ps : List KeyCombo} :
    ∀ (evs : List KeyCombo) (s : ModalState) (g : Grabs),
      s.keys = ks → s.escape_keys = es → s.pywo.keys = ps →
      GrabsWithin ks es ps g →
      GrabsWithin ks es ps (runPresses s g evs).2 := by
  intro evs
  induction evs with
  | nil => intro s g _ _ _ hg; exact hg
  | cons ev rest ih =>
    intro s g h1 h2 h3 hg
    unfold runPresses
    have hf := modalKeyPress_fields s g ev
    exact ih (modalKeyPress s g ev).1 (modalKeyPress s g ev).2.1
      (hf.1.trans h1) (hf.2.1.trans h2) (by rw [hf.2.2.1, h3])
      (modalKeyPress_within ev h1 h2 h3 hg)

/-- Disjoint grab domains force the at-most-one-handler property. -/
theorem within_oneHandler {ks es ps : List KeyCombo} {g : Grabs}
    (hd1 : ∀ c ∈ ks, c ∉ es) (hd2 : ∀ c ∈ ks, c ∉ ps)
    (hd3 : ∀ c ∈ es, c ∉ ps) (hg : GrabsWithin ks es ps g) :
    OneHandlerPerCombo g := by
  intro c h1 h2 m1 m2
  have a1 := hg _ m1
  have a2 := hg _ m2
  cases h1 <;> cases h2 <;> simp only at a1 a2 <;>
    first
      | rfl
      | exact absurd a2 (hd1 c a1)
      | exact absurd a1 (hd1 c a2)
      | exact absurd a2 (hd2 c a1)
      | exact absurd a1 (hd2 c a2)
      | exact absurd a2 (hd3 c a1)
      | exact absurd a1 (hd3 c a2)

/-!  Claim theorems. -/

/-- C6: the dispatcher's `key_press` never propagates an exception to
its caller: for a matching binding, a recognized `ActionException`
raised during dispatch is logged at error severity and swallowed, any
other exception (from the active-window query, argument resolution or
the action call) is logged with the full traceback and swallowed, and
dispatch returns normally in every case. -/
theorem dispatch_never_propagates (env : DispatchEnv) (s : DispState)
    (ev : KeyCombo) :
    (pywoKeyPress env s ev).2 = none ∧
    (∀ t, alGet s.mappings ev = some t →
      ((dispatchBody env t).2 = some PyExc.actionException →
        DEffect.logError ∈ (pywoKeyPress env s ev).1) ∧
      ((dispatchBody env t).2 = some PyExc.otherException →
        DEffect.logException ∈ (pywoKeyPress env s ev).1)) := by
  unfold pywoKeyPress
  cases hl : alGet s.mappings ev with
  | none => simp
  | some t =>
    cases hb : dispatchBody env t with
    | mk tr exc =>
      cases exc with
      | none => simp [hb]
      | some e => cases e <;> simp [hb]

/-- C6 witness: a concrete dispatch where the action raises an
`ActionException` returns normally with the error logged. -/
theorem dispatch_never_propagates_witness :
    (pywoKeyPress envAct dOne kpdCombo).2 = none ∧
    DEffect.logError ∈ (pywoKeyPress envAct dOne kpdCombo).1 :=
  ⟨(dispatch_never_propagates envAct dOne kpdCombo).1,
   ((dispatch_never_propagates envAct dOne kpdCombo).2
      (floatA, none) (by decide)).1 (by decide)⟩

/-- C9: a key event whose `(modifiers, keycode)` pair is not in the
current mappings makes the dispatcher's `key_press` a complete no-op:
no effect at all is performed (in particular no active-window query and
no action invocation) and no exception is raised. -/
theorem unmatched_event_noop (env : DispatchEnv) (s : DispState)
    (ev : KeyCombo) (h : alGet s.mappings ev = none) :
    pywoKeyPress env s ev = ([], none) := by
  unfold pywoKeyPress
  rw [h]

/-- C9 witness: a concrete unmatched combo produces no effects and no
exception. -/
theorem unmatched_event_noop_witness :
    pywoKeyPress envAct dOne f11Combo = ([], none) :=
  unmatched_event_noop envAct dOne f11Combo (by decide)

/-- C8: the controller's own `key_press` recognizes exactly its
(mode-entry) key list: pressing the mode-entry combo toggles
`in_pywo_mode` — entering PyWO mode from normal mode and leaving it
when already in it, whatever the modal-operation flag — while any
other combo leaves state and grabs untouched. -/
theorem mode_entry_toggles (s : ModalState) (g : Grabs)
    (entry ev : KeyCombo) (hk : s.keys = [entry]) :
    ((modalKeyPress s g entry).1.in_pywo_mode = !s.in_pywo_mode) ∧
    (ev ≠ entry → modalKeyPress s g ev = (s, g, [])) := by
  constructor
  · unfold modalKeyPress
    rw [hk]
    cases hm : s.in_pywo_mode with
    | false => simp [hm, pywoModeStep]
    | true => simp [hm, normalModeStep]
  · intro hne
    unfold modalKeyPress
    rw [hk]
    simp [hne]

/-- C8 witness: with the mode-entry combo `F11` configured, pressing
`F11` in normal mode enters PyWO mode and pressing a different combo
changes nothing. -/
theorem mode_entry_toggles_witness :
    ((modalKeyPress { initModal escCombo with keys := [f11Combo] } []
        f11Combo).1.in_pywo_mode = true) ∧
    (modalKeyPress { initModal escCombo with keys := [f11Combo] } []
        kpdCombo = ({ initModal escCombo with keys := [f11Combo] }, [], [])) :=
  ⟨(mode_entry_toggles { initModal escCombo with keys := [f11Combo] } []
      f11Combo kpdCombo rfl).1,
   (mode_entry_toggles { initModal escCombo with keys := [f11Combo] } []
      f11Combo kpdCombo rfl).2 (by decide)⟩

/-- C10: calling the controller's `set_config` with a configuration
whose key table lacks a `pywo_mode` entry only rebuilds the inner
dispatcher and clears `use_modal_mode`; the controller's own key list,
its lock-sensitivity flags, its feedback settings and `in_pywo_mode`
all keep their previous values, so a previously configured mode-entry
combo stays recognized. -/
theorem set_config_no_mode_key_frame (env : ResolveEnv)
    (catalog : List PAction) (cfg : Config) (s : ModalState) (p : DispState)
    (hk : alGet cfg.keys "pywo_mode" = none)
    (hp : pywoSetConfig env catalog cfg s.pywo = (p, none)) :
    modalSetConfig env catalog cfg s =
      ({ s with pywo := p, use_modal_mode := false }, none) := by
  unfold modalSetConfig
  rw [hp, hk]

/-- A controller state as left by an earlier modal configuration:
mode-entry combo `F11` recognized, modal mode in use. -/
def stPrev : ModalState :=
  { initModal escCombo with keys := [f11Combo], use_modal_mode := true }

/-- C10 witness: reconfiguring a controller that had mode-entry combo
`F11` with a configuration lacking the `pywo_mode` key leaves its key
list, feedback settings and `in_pywo_mode` unchanged while clearing
the modal flag. -/
theorem set_config_no_mode_key_frame_witness :
    modalSetConfig rv [floatA] cfgNoKey stPrev =
      ({ stPrev with
          pywo := (pywoSetConfig rv [floatA] cfgNoKey stPrev.pywo).1
          use_modal_mode := false }, none) :=
  set_config_no_mode_key_frame rv [floatA] cfgNoKey stPrev
    (pywoSetConfig rv [floatA] cfgNoKey stPrev.pywo).1
    (by decide) (by decide)

/-!  C1: the shutdown behaviour of `stop()`. -/

/-- The small action catalog used by the concrete runs. -/
def catalogCx : List PAction := [floatA]

/-- Controller state after `setup(cfgModal)`. -/
def runC1State : ModalState :=
  (modalSetConfig rv catalogCx cfgModal (initModal escCombo)).1

/-- Grab record after `start()`. -/
def runC1Grabs : Grabs := (modalGrab runC1State []).1

/-- Controller after the mode-entry key `F11` is pressed (entering
PyWO mode). -/
def runC1After : ModalState × Grabs × List Effect :=
  modalKeyPress runC1State runC1Grabs f11Combo

/-- Grab record after `stop()` from PyWO mode. -/
def runC1Stop : Grabs := (stopStep runC1After.1 runC1After.2.1).1

/-- C1 counterexample: with modal operation enabled, configuring,
starting, entering PyWO mode and then calling `stop()` leaves the
controller's own grab of the mode-entry combo `F11` in place — the
grab record is not empty, so `stop()` does not always end with zero
grabbed combos. -/
theorem stop_leaves_mode_entry_grab :
    runC1Stop = [(HandlerId.controller, f11Combo)] ∧ runC1Stop ≠ [] := by
  constructor <;> decide

/-- C1 amended: `stop()` from PyWO mode tears down the escape
handler's grabs and the inner dispatcher's grabs of its current keys —
with the modal flag set the escape grab too — but every grab held by
the controller itself survives, so a full shutdown from PyWO mode with
modal operation enabled keeps the mode-entry grab alive. -/
theorem stop_in_pywo_mode_teardown (s : ModalState) (g : Grabs)
    (h1 : s.in_pywo_mode = true) (h2 : s.use_modal_mode = true) :
    (∀ c ∈ s.escape_keys, (HandlerId.escapeH, c) ∉ (stopStep s g).1) ∧
    (∀ c ∈ s.pywo.keys, (HandlerId.pywoH, c) ∉ (stopStep s g).1) ∧
    (∀ c, (HandlerId.controller, c) ∈ g →
      (HandlerId.controller, c) ∈ (stopStep s g).1) := by
  have hstop : (stopStep s g).1 =
      ungrabList (ungrabList g HandlerId.escapeH s.escape_keys)
        HandlerId.pywoH s.pywo.keys := by
    unfold stopStep modalUngrab
    simp [h1, h2]
  refine ⟨?_, ?_, ?_⟩
  · intro c hc hmem
    rw [hstop] at hmem
    have := mem_ungrabList.mp (ungrabList_subset hmem)
    simp at this
    exact this.2 hc
  · intro c hc hmem
    rw [hstop] at hmem
    have := mem_ungrabList.mp hmem
    simp at this
    exact this.2 hc
  · intro c hcg
    rw [hstop]
    refine mem_ungrabList.mpr ⟨mem_ungrabList.mpr ⟨hcg, Or.inl ?_⟩, Or.inl ?_⟩
    · intro h
      cases h
    · intro h
      cases h

/-- C1 amended witness: in the concrete run the escape grab and the
`KP_Divide` shortcut grab are gone after `stop()` while the
controller's `F11` grab survives. -/
theorem stop_in_pywo_mode_teardown_witness :
    (HandlerId.escapeH, escCombo) ∉ runC1Stop ∧
    (HandlerId.pywoH, kpdCombo) ∉ runC1Stop ∧
    (HandlerId.controller, f11Combo) ∈ runC1Stop :=
  ⟨(stop_in_pywo_mode_teardown runC1After.1 runC1After.2.1
      (by decide) (by decide)).1 escCombo (by decide),
   (stop_in_pywo_mode_teardown runC1After.1 runC1After.2.1
      (by decide) (by decide)).2.1 kpdCombo (by decide),
   (stop_in_pywo_mode_teardown runC1After.1 runC1After.2.1
      (by decide) (by decide)).2.2 f11Combo (by decide)⟩

/-!  C3: side effects of entering PyWO mode. -/

/-- Controller state after `setup(cfgNonModal)` (mode-entry key
present, modal flag off, hence immediately in PyWO mode). -/
def runC3a : ModalState :=
  (modalSetConfig rv catalogCx cfgNonModal (initModal escCombo)).1

/-- First press of `F11`: leaves PyWO mode. -/
def runC3b : ModalState × Grabs × List Effect :=
  modalKeyPress runC3a (modalGrab runC3a []).1 f11Combo

/-- Second press of `F11`: re-enters PyWO mode. -/
def runC3c : ModalState × Grabs × List Effect :=
  modalKeyPress runC3b.1 runC3b.2.1 f11Combo

/-- C3 counterexample: with modal operation disabled, a mode-entry
press from normal mode still issues a grab of the escape combo — the
escape grab is not conditional on the modal-operation flag. -/
theorem escape_grab_without_modal :
    runC3b.1.use_modal_mode = false ∧
    runC3b.1.in_pywo_mode = false ∧
    Effect.grab HandlerId.escapeH escCombo ∈ runC3c.2.2 ∧
    (HandlerId.escapeH, escCombo) ∈ runC3c.2.1 := by
  refine ⟨by decide, by decide, by decide, by decide⟩

/-- C3 amended: a mode-entry press in normal mode enters PyWO mode
with side effects in this order — LED on when enabled, visual bell
with the configured colour, width and duration when enabled, grabs of
all the inner dispatcher's keys, and a grab of the escape combo issued
unconditionally, whatever the modal-operation flag. -/
theorem pywo_mode_entry_effects (s : ModalState) (g : Grabs)
    (ev : KeyCombo) (hev : ev ∈ s.keys) (hn : s.in_pywo_mode = false) :
    modalKeyPress s g ev =
      ({ s with in_pywo_mode := true },
       grabList (grabList g HandlerId.pywoH s.pywo.keys)
         HandlerId.escapeH s.escape_keys,
       (if s.scroll_lock_led then [Effect.ledOn] else []) ++
       (if s.visual_bell then
          [Effect.bell s.bell_color s.bell_width s.bell_duration]
        else []) ++
       s.pywo.keys.map (Effect.grab HandlerId.pywoH) ++
       s.escape_keys.map (Effect.grab HandlerId.escapeH)) := by
  unfold modalKeyPress pywoModeStep
  simp [hev, hn]

/-- C3 amended witness: the second `F11` press of the non-modal run
performs exactly LED-on, the dispatcher grab and the escape grab, in
that order. -/
theorem pywo_mode_entry_effects_witness :
    runC3c =
      ({ runC3b.1 with in_pywo_mode := true },
       grabList (grabList runC3b.2.1 HandlerId.pywoH runC3b.1.pywo.keys)
         HandlerId.escapeH runC3b.1.escape_keys,
       (if runC3b.1.scroll_lock_led then [Effect.ledOn] else []) ++
       (if runC3b.1.visual_bell then
          [Effect.bell runC3b.1.bell_color runC3b.1.bell_width
            runC3b.1.bell_duration]
        else []) ++
       runC3b.1.pywo.keys.map (Effect.grab HandlerId.pywoH) ++
       runC3b.1.escape_keys.map (Effect.grab HandlerId.escapeH)) :=
  pywo_mode_entry_effects runC3b.1 runC3b.2.1 f11Combo
    (by decide) (by decide)

/-!  C5: behaviour of `set_config` on an invalid global key. -/

/-- A global action whose configured key string does not resolve. -/
def maximizeA : PAction := ⟨"maximize", false⟩

/-- A configuration binding `float` and `exit` to valid keys and
`maximize` to an unresolvable one. -/
def cfgGlobalBad : Config :=
  { cfgModal with
    keys := [("float", "KP_Divide"), ("maximize", "BAD"), ("exit", "F11")] }

/-- The dispatcher's `set_config` on that configuration. -/
def runC5 : DispState × Option PyErr :=
  pywoSetConfig rv [floatA, maximizeA, exitA] cfgGlobalBad dInit

/-- C5 counterexample: a global action's invalid key string makes
`set_config` raise a `ValueError` — the build aborts, the valid entry
for `exit`, processed after the failure point, is missing from the
table, and the lock flags are never taken over (shown against a prior
state with both flags set). -/
theorem global_key_failure_aborts :
    runC5.2 = some PyErr.valueError ∧
    alGet runC5.1.mappings f11Combo = none ∧
    alGet runC5.1.mappings kpdCombo = some (floatA, none) ∧
    (pywoSetConfig rv [floatA, maximizeA, exitA] cfgGlobalBad
      { dInit with numlock := true, capslock := true }).1.numlock = true := by
  refine ⟨by decide, by decide, by decide, by decide⟩

/-- C5 amended: on normal completion `set_config` replaces the
mappings, the `keys` snapshot and the lock flags wholesale; but a
global action's unresolvable key string raises a `ValueError` that
aborts the build, leaving the partially rebuilt mappings in place
while `keys` and the lock flags keep their previous values (invalid
section-scoped keys, by contrast, do not raise a `ValueError`). -/
theorem set_config_flags_replacement (env : ResolveEnv)
    (catalog : List PAction) (cfg : Config) (s : DispState) :
    ((pywoSetConfig env catalog cfg s).2 = none →
      (pywoSetConfig env catalog cfg s).1.numlock = cfg.numlock ∧
      (pywoSetConfig env catalog cfg s).1.capslock = cfg.capslock ∧
      (pywoSetConfig env catalog cfg s).1.keys =
        (pywoSetConfig env catalog cfg s).1.mappings.map Prod.fst) ∧
    (∀ e, (pywoSetConfig env catalog cfg s).2 = some e →
      (pywoSetConfig env catalog cfg s).1.numlock = s.numlock ∧
      (pywoSetConfig env catalog cfg s).1.capslock = s.capslock ∧
      (pywoSetConfig env catalog cfg s).1.keys = s.keys) := by
  unfold pywoSetConfig
  cases h : actionsLoop env cfg catalog [] none with
  | mk st e =>
    cases e with
    | none => simp
    | some e0 => simp

/-- C5 amended witness: the aborted concrete run keeps the prior
(empty) `keys` snapshot, and a fully valid run takes over the lock
flags. -/
theorem set_config_flags_replacement_witness :
    runC5.1.keys = dInit.keys ∧
    (pywoSetConfig rv [floatA] cfgModal dInit).1.numlock =
      cfgModal.numlock :=
  ⟨((set_config_flags_replacement rv [floatA, maximizeA, exitA]
      cfgGlobalBad dInit).2 PyErr.valueError (by decide)).2.2,
   ((set_config_flags_replacement rv [floatA] cfgModal dInit).1
      (by decide)).1⟩

/-!  C7: the "always active" collapse when modal operation is off. -/

/-- C7 counterexample: configuring a fresh controller with a
configuration that has no `pywo_mode` key completes normally, disables
modal operation — yet `in_pywo_mode` stays `false`, so the controller
is not in the PywoMode-equivalent state the claim requires. -/
theorem no_mode_key_keeps_in_pywo_false :
    (modalSetConfig rv catalogCx cfgNoKey (initModal escCombo)).2 = none ∧
    (modalSetConfig rv catalogCx cfgNoKey
        (initModal escCombo)).1.use_modal_mode = false ∧
    (modalSetConfig rv catalogCx cfgNoKey
        (initModal escCombo)).1.in_pywo_mode = false := by
  refine ⟨by decide, by decide, by decide⟩

/-- C7 amended: when the modal flag is off but a mode-entry key is
configured, `set_config` forces `in_pywo_mode` and clears
`use_modal_mode`; when the mode-entry key is absent, `set_config` only
clears `use_modal_mode`, leaving `in_pywo_mode` at its previous value;
in either case `grab_keys` delegates directly to the inner dispatcher,
so the shortcuts are live without any mode-entry press. -/
theorem modal_disabled_always_active :
    (∀ (env : ResolveEnv) (catalog : List PAction) (cfg : Config)
        (s : ModalState) (k : String) (entry : KeyCombo) (p : DispState),
      alGet cfg.keys "pywo_mode" = some k → k ≠ "" →
      cfg.modal_mode = false → env.resolve1 k = Except.ok entry →
      pywoSetConfig env catalog cfg s.pywo = (p, none) →
      (modalSetConfig env catalog cfg s).1.in_pywo_mode = true ∧
      (modalSetConfig env catalog cfg s).1.use_modal_mode = false) ∧
    (∀ (env : ResolveEnv) (catalog : List PAction) (cfg : Config)
        (s : ModalState) (p : DispState),
      alGet cfg.keys "pywo_mode" = none →
      pywoSetConfig env catalog cfg s.pywo = (p, none) →
      (modalSetConfig env catalog cfg s).1.use_modal_mode = false ∧
      (modalSetConfig env catalog cfg s).1.in_pywo_mode = s.in_pywo_mode) ∧
    (∀ (s : ModalState) (g : Grabs), s.use_modal_mode = false →
      modalGrab s g =
        (grabList g HandlerId.pywoH s.pywo.keys,
         s.pywo.keys.map (Effect.grab HandlerId.pywoH))) := by
  refine ⟨?_, ?_, ?_⟩
  · intro env catalog cfg s k entry p hk hne hm hr hp
    unfold modalSetConfig
    rw [hp, hk]
    simp [hne, hm, hr]
  · intro env catalog cfg s p hk hp
    unfold modalSetConfig
    rw [hp, hk]
    simp
  · intro s g hm
    unfold modalGrab
    simp [hm]

/-- C7 amended witness: the non-modal configuration with a mode-entry
key leaves the controller immediately in PyWO mode, and its
`grab_keys` grabs the inner dispatcher's binding. -/
theorem modal_disabled_always_active_witness :
    ((modalSetConfig rv catalogCx cfgNonModal
        (initModal escCombo)).1.in_pywo_mode = true ∧
     (modalSetConfig rv catalogCx cfgNonModal
        (initModal escCombo)).1.use_modal_mode = false) ∧
    modalGrab runC3a [] =
      (grabList [] HandlerId.pywoH runC3a.pywo.keys,
       runC3a.pywo.keys.map (Effect.grab HandlerId.pywoH)) :=
  ⟨modal_disabled_always_active.1 rv catalogCx cfgNonModal
      (initModal escCombo) "F11" f11Combo
      (pywoSetConfig rv catalogCx cfgNonModal (initModal escCombo).pywo).1
      (by decide) (by decide) (by decide) rfl (by decide),
   modal_disabled_always_active.2.2 runC3a [] (by decide)⟩

/-!  C2: at most one handler per grabbed combo. -/

/-- A configuration that binds the global action `float` to the same
key string as the mode-entry key. -/
def cfgClash : Config :=
  { cfgModal with keys := [("float", "F11"), ("pywo_mode", "F11")] }

/-- Controller state after `setup(cfgClash)`. -/
def runC2s : ModalState :=
  (modalSetConfig rv catalogCx cfgClash (initModal escCombo)).1

/-- Grabs after `start()` and one mode-entry press under `cfgClash`. -/
def runC2g : Grabs :=
  (modalKeyPress runC2s (modalGrab runC2s []).1 f11Combo).2.1

/-- C2 counterexample: when the configuration binds an action to the
same key string as the mode-entry key, the reachable state after
configure, start and one mode-entry press has the combo `F11` grabbed
by both the controller and the inner dispatcher — two different live
handlers hold the same physical key combination. -/
theorem duplicate_grab_reachable : ¬ OneHandlerPerCombo runC2g := by
  intro h
  have h1 : (HandlerId.controller, f11Combo) ∈ runC2g := by decide
  have h2 : (HandlerId.pywoH, f11Combo) ∈ runC2g := by decide
  exact absurd (h f11Combo HandlerId.controller HandlerId.pywoH h1 h2)
    (by decide)

/-- C2 amended: the at-most-one-handler invariant holds for every
state reachable by start and any key-press sequence from a single
configuration, provided the mode-entry combos, the escape combo and
the inner dispatcher's bindings are pairwise disjoint — without that
disjointness (which no code enforces) the invariant is violated. -/
theorem grab_uniqueness_of_disjoint (s : ModalState) (evs : List KeyCombo)
    (hd1 : ∀ c ∈ s.keys, c ∉ s.escape_keys)
    (hd2 : ∀ c ∈ s.keys, c ∉ s.pywo.keys)
    (hd3 : ∀ c ∈ s.escape_keys, c ∉ s.pywo.keys) :
    OneHandlerPerCombo (runPresses s (modalGrab s []).1 evs).2 := by
  have hg0 : GrabsWithin s.keys s.escape_keys s.pywo.keys
      (modalGrab s []).1 := by
    intro p hp
    unfold modalGrab at hp
    by_cases hm : s.use_modal_mode = true <;> simp [hm] at hp <;>
      rcases mem_grabList _ _ hp with hfalse | ⟨he, hc⟩ <;>
        first
          | cases hfalse
          | (cases p; simp only at he hc; rw [he]; exact hc)
  exact within_oneHandler hd1 hd2 hd3
    (runPresses_within evs s (modalGrab s []).1 rfl rfl rfl hg0)

/-- C2 amended witness: under the non-clashing modal configuration
(mode entry `F11`, escape `Escape`, binding `KP_Divide`), the state
after start and two mode-entry presses still has every combo grabbed
by at most one handler. -/
theorem grab_uniqueness_of_disjoint_witness :
    OneHandlerPerCombo
      (runPresses runC1State (modalGrab runC1State []).1
        [f11Combo, f11Combo]).2 :=
  grab_uniqueness_of_disjoint runC1State [f11Combo, f11Combo]
    (by decide) (by decide) (by decide)

/-!  C4: a section-scoped resolution failure during the table build. -/

/-- A configuration giving the section-scoped action `put` the mask
`super`, with a resolvable section `left` followed by the
unresolvable section `bad`. -/
def cfgSections : Config :=
  { cfgModal with
    keys := [("put", "super")]
    sections := [secLeft, secBad] }

/-- The dispatcher's `set_config` on `cfgSections`. -/
def runC4 : DispState × Option PyErr :=
  pywoSetConfig rv [putA] cfgSections dInit

/-- C4: what the code actually does on a section resolution failure.
The `ValueError` is caught and logged, but the dict assignment that
follows is outside the `try` and still runs with the stale
`(mod, keycode)` pair: the failed section `bad` is inserted under the
combo resolved for the previous section `left`, overwriting that valid
entry — instead of being skipped — and when no previous resolution
exists the assignment raises a `NameError` that aborts the build. -/
theorem section_failure_inserts_stale :
    runC4.2 = none ∧
    runC4.1.mappings = [(superH, (putA, some secBad))] ∧
    (pywoSetConfig rv [putA]
      { cfgSections with sections := [secBad, secLeft] } dInit).2 =
      some PyErr.nameError := by
  refine ⟨by decide, by decide, by decide⟩

end Pywo
